import Mathlib

/-
  Verification of the metrics-enrichment decorator in
  `gateway/metrics/add_metrics.go`.

  The Go source is shallowly embedded below.  Machine floats (float64)
  are modelled by rationals; the dynamically typed sample value
  (`interface{}`) is modelled by a closed variant distinguishing strings
  from every non-string payload; the Prometheus float parser
  `strconv.ParseFloat` (Go standard library, external to this
  repository) is a parameter `pf : String → Option ℚ` of every
  definition that reads a sample value, so the theorems hold for any
  parsing function; a concrete executable instance is supplied for
  witnesses.
-/

namespace Faas

/-- Modelled from the spec: the `requests.Function` record (its
definition lives outside the packaged sources).  The spec's data model:
identified by `Name`; carries four mutable derived fields
`InvocationCount`, `InvocationCount2XX`, `InvocationCountNon2XX`,
`AverageResponseTime` (float64, here ℚ); `metadata` stands for every
other (non-derived) field of the record, which the merge never
touches. -/
structure FunctionRecord where
  name : String
  metadata : String
  invocationCount : ℚ
  invocationCount2XX : ℚ
  invocationCountNon2XX : ℚ
  averageResponseTime : ℚ
  deriving DecidableEq, Repr

/-- The dynamically typed value field of a sample (`interface{}` in Go,
deserialized from JSON).  `str s` is a string payload; `nonString`
stands for any payload of a non-string type. -/
inductive MetricValue where
  | str : String → MetricValue
  | nonString : MetricValue
  deriving DecidableEq, Repr

/-- Modelled from the spec: one labeled sample of a vector query
response, JSON shape `{ metric: { function_name, ... }, value:
[timestamp, value] }` (the `VectorQueryResponse` type is defined
outside the packaged sources). -/
structure Metric where
  functionName : String
  code : String
  deriving DecidableEq, Repr

/-- A sample: its label set and the `[timestamp, value]` pair; only
`value.2` (Go `v.Value[1]`) is ever read by the merge. -/
structure Sample where
  metric : Metric
  value : MetricValue × MetricValue
  deriving DecidableEq, Repr

/-- Modelled from the spec: the `data` member of a query response,
holding the `result` vector of samples. -/
structure QueryData where
  result : List Sample
  deriving DecidableEq, Repr

/-- Modelled from the spec: a Prometheus vector query response,
`{ data: { result: [...] } }`. -/
structure VectorQueryResponse where
  data : QueryData
  deriving DecidableEq, Repr

/-- Embedding of `parseMetricValue` (add_metrics.go:179-189).  The Go
switch has a single `case string`, which hands the string to
`strconv.ParseFloat` (modelled by the parameter `pf`; on failure Go
returns the zero value 0 together with the error).  Any non-string
value matches no case, so the function returns the zero values
`(0, nil)` — value 0 and no error.  The error is modelled as
`Option Unit` (`none` = nil error). -/
def parseMetricValue (pf : String → Option ℚ) : MetricValue → ℚ × Option Unit
  | MetricValue.str s =>
      match pf s with
      | some v => (v, none)
      | none => (0, some ())
  | MetricValue.nonString => (0, none)

/-- The reset loop of `mixIn` (add_metrics.go:117-123): all four
derived fields are set to 0; nothing else changes. -/
def resetRecord (f : FunctionRecord) : FunctionRecord :=
  { f with invocationCount := 0, invocationCount2XX := 0,
           invocationCountNon2XX := 0, averageResponseTime := 0 }

/-- One inner loop of `mixIn` (e.g. add_metrics.go:127-135): scan the
samples, and for every sample whose `function_name` label equals the
record's name, parse the value and, when the error is nil, add the
parsed value to the accumulating field. -/
def accumulateField (pf : String → Option ℚ) (name : String)
    (samples : List Sample) (init : ℚ) : ℚ :=
  samples.foldl
    (fun acc v =>
      if v.metric.functionName = name then
        let p := parseMetricValue pf v.value.2
        if p.2 = none then acc + p.1 else acc
      else acc)
    init

/-- The per-record body of `mixIn`'s main loop (add_metrics.go:125-170):
after the reset, each of the four fields accumulates (starting from its
reset value 0) the matching samples of its query result.  The doubled
`if` in the Go source's third and fourth inner loops repeats the same
condition and is translated once. -/
def enrichRecord (pf : String → Option ℚ)
    (m1 m2 m3 m4 : VectorQueryResponse) (f : FunctionRecord) :
    FunctionRecord :=
  let g := resetRecord f
  { g with
    invocationCount :=
      accumulateField pf f.name m1.data.result g.invocationCount,
    invocationCount2XX :=
      accumulateField pf f.name m2.data.result g.invocationCount2XX,
    invocationCountNon2XX :=
      accumulateField pf f.name m3.data.result g.invocationCountNon2XX,
    averageResponseTime :=
      accumulateField pf f.name m4.data.result g.averageResponseTime }

/-- Embedding of `mixIn` (add_metrics.go:111-171).  The Go function
receives `functions *[]requests.Function`; the nil pointer is modelled
by `none` and returns immediately.  Otherwise every record of the list
is reset and re-accumulated in place, modelled by a map. -/
def mixIn (pf : String → Option ℚ)
    (functions : Option (List FunctionRecord))
    (m1 m2 m3 m4 : VectorQueryResponse) : Option (List FunctionRecord) :=
  match functions with
  | none => none
  | some fns => some (fns.map (enrichRecord pf m1 m2 m3 m4))

/-- Definition following the spec's words (§4.2 step 2 and §8
"Summation across duplicate samples"): the sum of the parsed values of
all samples whose `function_name` label exactly equals the record's
name and whose values parse successfully (nil error).  Compared against
the embedded `mixIn` below. -/
def specSumOfMatching (pf : String → Option ℚ) (name : String)
    (samples : List Sample) : ℚ :=
  ((samples.filter
      (fun v => v.metric.functionName == name &&
        ((parseMetricValue pf v.value.2).2).isNone)).map
    (fun v => (parseMetricValue pf v.value.2).1)).sum

/-- Modelled from the spec: Go's `url.QueryEscape` (standard library,
external to this repository) leaves unreserved characters
(alphanumerics and `-_.~`) intact. -/
def isUnreserved (c : Char) : Bool :=
  (('A' ≤ c && c ≤ 'Z') || ('a' ≤ c && c ≤ 'z') ||
   ('0' ≤ c && c ≤ '9') || c = '-' || c = '_' || c = '.' || c = '~')

/-- Uppercase hexadecimal digit of `n % 16`. -/
def hexDigit (n : Nat) : Char :=
  (List.getD ("0123456789ABCDEF".data) (n % 16) '0')

/-- Modelled from the spec: percent-encoding of one ASCII character as
`url.QueryEscape` does it — unreserved characters unchanged, space
becomes `+`, anything else becomes `%XX` with uppercase hex. -/
def escapeChar (c : Char) : String :=
  if c = ' ' then "+"
  else if isUnreserved c then String.singleton c
  else
    String.mk ['%', hexDigit (c.toNat / 16), hexDigit (c.toNat % 16)]

/-- Modelled from the spec: `url.QueryEscape` over an ASCII query
expression (add_metrics.go applies it to each of the four fixed
Prometheus expressions before handing them to the fetcher). -/
def queryEscape (s : String) : String :=
  String.join (s.data.map escapeChar)

/-- The first query expression (add_metrics.go:60): total invocation
count per function, all status codes. -/
def invocationCountExpr : String :=
  queryEscape
    "sum(gateway_function_invocation_total\x7bfunction_name=~\".*\", code=~\".*\"\x7d) by (function_name, code)"

/-- The second query expression (add_metrics.go:69): invocation count
per function, status codes matching 2xx. -/
def invocationCount2XXExpr : String :=
  queryEscape
    "sum(gateway_function_invocation_total \x7bfunction_name=~\".*\", code=~\"2.*\"\x7d) by (function_name)"

/-- The third query expression (add_metrics.go:78): invocation count
per function, status codes not matching 2xx. -/
def invocationCountNon2XXExpr : String :=
  queryEscape
    "sum(gateway_function_invocation_total \x7bfunction_name=~\".*\", code!~\"2.*\"\x7d) by (function_name)"

/-- The fourth query expression (add_metrics.go:87): average response
time per function. -/
def averageResponseTimeExpr : String :=
  queryEscape
    "avg(gateway_functions_seconds_sum/gateway_functions_seconds_count \x7bfunction_name=~\".*\"\x7d) by (function_name)"

attribute [irreducible] invocationCountExpr invocationCount2XXExpr
attribute [irreducible] invocationCountNon2XXExpr averageResponseTimeExpr

/-- The four expressions in the order the decorator issues them. -/
def exprList : List String :=
  [invocationCountExpr, invocationCount2XXExpr,
   invocationCountNon2XXExpr, averageResponseTimeExpr]

/-- Modelled from the spec: the captured upstream body bytes.  A body
either deserializes (via `json.Unmarshal`, standard library) into a
function list or is malformed. -/
inductive UpstreamBody where
  | functionList : List FunctionRecord → UpstreamBody
  | malformed : String → UpstreamBody
  deriving DecidableEq, Repr

/-- Modelled from the spec: `json.Unmarshal` of the captured body into
`[]requests.Function` — succeeds exactly on a serialized function
list. -/
def parseFunctions : UpstreamBody → Option (List FunctionRecord)
  | UpstreamBody.functionList fns => some fns
  | UpstreamBody.malformed _ => none

/-- The captured result of the wrapped handler (the `httptest`
recorder): its status code and its body (`none` models a nil body). -/
structure Recorder where
  code : Nat
  body : Option UpstreamBody
  deriving DecidableEq, Repr

/-- The body the decorator writes to the real response writer. -/
inductive ResponseBody where
  /-- A plain-text diagnostic. -/
  | text : String → ResponseBody
  /-- The captured upstream bytes passed through verbatim. -/
  | raw : UpstreamBody → ResponseBody
  /-- The `json.Marshal` serialization of an enriched function list. -/
  | json : List FunctionRecord → ResponseBody
  deriving DecidableEq, Repr

/-- The response written by the decorator: status code, Content-Type
header and body. -/
structure HttpResponse where
  status : Nat
  contentType : String
  body : ResponseBody
  deriving DecidableEq, Repr

/-- Embedding of `writeResponse` (add_metrics.go:173-177): status 200,
`application/json`, and the given captured bytes verbatim. -/
def writeResponse (body : UpstreamBody) : HttpResponse :=
  { status := 200, contentType := "application/json",
    body := ResponseBody.raw body }

/-- Whether a fetch result is an error. -/
def isErr : Except String VectorQueryResponse → Bool
  | Except.error _ => true
  | Except.ok _ => false

/-- Embedding of the handler returned by `AddMetricsHandler`
(add_metrics.go:22-109) on one request.  Inputs: the fetch capability
`fetch` (the `PrometheusQueryFetcher`), the float parser `pf`, and the
captured upstream result.  Output: the response written to the real
writer (`none` when the Go code returns without writing — nil body, or
`json.Marshal` failure, which cannot occur for this record type and is
modelled as total), paired with the list of query expressions handed to
`fetch`, in order. -/
def addMetricsHandler (fetch : String → Except String VectorQueryResponse)
    (pf : String → Option ℚ) (upstream : Recorder) :
    Option HttpResponse × List String :=
  match upstream.body with
  | none => (none, [])
  | some upstreamBody =>
    if upstream.code ≠ 200 then
      (some { status := 500, contentType := "text/plain",
              body := ResponseBody.text
                ("Error pulling metrics from provider/backend. Status code: "
                  ++ toString upstream.code) }, [])
    else
      match parseFunctions upstreamBody with
      | none =>
          (some { status := 500, contentType := "text/plain",
                  body := ResponseBody.text
                    "Error parsing metrics from upstream provider/backend." },
           [])
      | some functions =>
        match fetch invocationCountExpr with
        | Except.error _ =>
            (some (writeResponse upstreamBody), [invocationCountExpr])
        | Except.ok results =>
          match fetch invocationCount2XXExpr with
          | Except.error _ =>
              (some (writeResponse upstreamBody),
               [invocationCountExpr, invocationCount2XXExpr])
          | Except.ok invocationCount2XXResults =>
            match fetch invocationCountNon2XXExpr with
            | Except.error _ =>
                (some (writeResponse upstreamBody),
                 [invocationCountExpr, invocationCount2XXExpr,
                  invocationCountNon2XXExpr])
            | Except.ok invocationCountNon2XXResults =>
              match fetch averageResponseTimeExpr with
              | Except.error _ =>
                  (some (writeResponse upstreamBody), exprList)
              | Except.ok averageResponseTimeResults =>
                let enriched :=
                  (mixIn pf (some functions) results
                    invocationCount2XXResults invocationCountNon2XXResults
                    averageResponseTimeResults).getD functions
                (some { status := 200, contentType := "application/json",
                        body := ResponseBody.json enriched }, exprList)

/-- A concrete float parser used by the witnesses: non-negative decimal
numerals with an optional fractional part (a fragment of
`strconv.ParseFloat`'s accepted language; any other string is a parse
failure). -/
def digitsToNat (l : List Char) : Nat :=
  l.foldl (fun a c => 10 * a + (c.toNat - 48)) 0

/-- See `digitsToNat`; the parser itself. -/
def parseFloatModel (s : String) : Option ℚ :=
  let l := s.data
  let intPart := l.takeWhile Char.isDigit
  let rest := l.dropWhile Char.isDigit
  match intPart, rest with
  | [], _ => none
  | _, [] => some (digitsToNat intPart)
  | _, c :: frac =>
    if c = '.' ∧ frac ≠ [] ∧ frac.all Char.isDigit then
      some ((digitsToNat intPart : ℚ) +
        (digitsToNat frac : ℚ) / ((10 : ℚ) ^ frac.length))
    else none

/-! Helper lemmas shared by the claim theorems. -/

theorem isErr_eq_true {x : Except String VectorQueryResponse}
    (h : isErr x = true) : ∃ e, x = Except.error e := by
  cases x with
  | error e => exact ⟨e, rfl⟩
  | ok r => simp [isErr] at h

theorem isErr_eq_false {x : Except String VectorQueryResponse}
    (h : isErr x = false) : ∃ r, x = Except.ok r := by
  cases x with
  | error e => simp [isErr] at h
  | ok r => exact ⟨r, rfl⟩

theorem accumulateField_eq (pf : String → Option ℚ) (nm : String) :
    ∀ (samples : List Sample) (init : ℚ),
      accumulateField pf nm samples init =
        init + specSumOfMatching pf nm samples := by
  intro samples
  induction samples with
  | nil => intro init; simp [accumulateField, specSumOfMatching]
  | cons v t ih =>
    intro init
    have step : accumulateField pf nm (v :: t) init =
        accumulateField pf nm t
          (if v.metric.functionName = nm then
            (if (parseMetricValue pf v.value.2).2 = none then
              init + (parseMetricValue pf v.value.2).1 else init)
          else init) := rfl
    rw [step, ih]
    by_cases h : v.metric.functionName = nm
    · by_cases herr : (parseMetricValue pf v.value.2).2 = none
      · simp [specSumOfMatching, List.filter_cons, h, herr]
        ring
      · simp [specSumOfMatching, List.filter_cons, h, herr]
    · simp [specSumOfMatching, List.filter_cons, h]

theorem enrichRecord_eq (pf : String → Option ℚ)
    (m1 m2 m3 m4 : VectorQueryResponse) (f : FunctionRecord) :
    enrichRecord pf m1 m2 m3 m4 f =
      { f with
        invocationCount := specSumOfMatching pf f.name m1.data.result,
        invocationCount2XX := specSumOfMatching pf f.name m2.data.result,
        invocationCountNon2XX := specSumOfMatching pf f.name m3.data.result,
        averageResponseTime :=
          specSumOfMatching pf f.name m4.data.result } := by
  simp [enrichRecord, resetRecord, accumulateField_eq]

theorem enrichRecord_idem (pf : String → Option ℚ)
    (m1 m2 m3 m4 : VectorQueryResponse) (f : FunctionRecord) :
    enrichRecord pf m1 m2 m3 m4 (enrichRecord pf m1 m2 m3 m4 f) =
      enrichRecord pf m1 m2 m3 m4 f := by
  simp [enrichRecord_eq]

theorem mixIn_eq_spec (pf : String → Option ℚ) (fns : List FunctionRecord)
    (m1 m2 m3 m4 : VectorQueryResponse) :
    mixIn pf (some fns) m1 m2 m3 m4 =
      some (fns.map (fun f =>
        { f with
          invocationCount := specSumOfMatching pf f.name m1.data.result,
          invocationCount2XX := specSumOfMatching pf f.name m2.data.result,
          invocationCountNon2XX :=
            specSumOfMatching pf f.name m3.data.result,
          averageResponseTime :=
            specSumOfMatching pf f.name m4.data.result })) := by
  induction fns with
  | nil => rfl
  | cons f t ih =>
    simp only [mixIn, List.map_cons, Option.some.injEq] at ih ⊢
    rw [enrichRecord_eq, ih]

theorem specSumOfMatching_skip (pf : String → Option ℚ) (s : Sample)
    (h : (parseMetricValue pf s.value.2).2 = some ()) :
    ∀ (nm : String) (pre post : List Sample),
      specSumOfMatching pf nm (pre ++ s :: post) =
        specSumOfMatching pf nm (pre ++ post) := by
  intro nm pre post
  simp [specSumOfMatching, List.filter_append, List.filter_cons, h]

/-! The claims. -/

/-- C1: for every request in which the wrapped handler returns status
OK (200) with a body parseable as a function list, if the k-th metric
fetch (k < 4, counting the fetches actually issued) returns an error
while the earlier ones succeed, the decorator writes the original
captured upstream body verbatim with status 200 and Content-Type
application/json, and issues only the first k+1 fetches — never the
remaining ones. -/
theorem addMetricsHandler_fallback_on_fetch_error
    (fetch : String → Except String VectorQueryResponse)
    (pf : String → Option ℚ) (body : UpstreamBody)
    (fns : List FunctionRecord) (k : ℕ) (hk : k < 4)
    (hparse : parseFunctions body = some fns)
    (herr : isErr (fetch (exprList.getD k "")) = true)
    (hok : ∀ j, j < k → isErr (fetch (exprList.getD j "")) = false) :
    addMetricsHandler fetch pf { code := 200, body := some body } =
      (some { status := 200, contentType := "application/json",
              body := ResponseBody.raw body },
       exprList.take (k + 1)) := by
  interval_cases k
  · obtain ⟨e, he⟩ := isErr_eq_true herr
    have he' : fetch invocationCountExpr = Except.error e := he
    simp [addMetricsHandler, hparse, he', writeResponse, exprList]
  · obtain ⟨e, he⟩ := isErr_eq_true herr
    obtain ⟨r0, h0⟩ := isErr_eq_false (hok 0 (by norm_num))
    have he' : fetch invocationCount2XXExpr = Except.error e := he
    have h0' : fetch invocationCountExpr = Except.ok r0 := h0
    simp [addMetricsHandler, hparse, he', h0', writeResponse, exprList]
  · obtain ⟨e, he⟩ := isErr_eq_true herr
    obtain ⟨r0, h0⟩ := isErr_eq_false (hok 0 (by norm_num))
    obtain ⟨r1, h1⟩ := isErr_eq_false (hok 1 (by norm_num))
    have he' : fetch invocationCountNon2XXExpr = Except.error e := he
    have h0' : fetch invocationCountExpr = Except.ok r0 := h0
    have h1' : fetch invocationCount2XXExpr = Except.ok r1 := h1
    simp [addMetricsHandler, hparse, he', h0', h1', writeResponse, exprList]
  · obtain ⟨e, he⟩ := isErr_eq_true herr
    obtain ⟨r0, h0⟩ := isErr_eq_false (hok 0 (by norm_num))
    obtain ⟨r1, h1⟩ := isErr_eq_false (hok 1 (by norm_num))
    obtain ⟨r2, h2⟩ := isErr_eq_false (hok 2 (by norm_num))
    have he' : fetch averageResponseTimeExpr = Except.error e := he
    have h0' : fetch invocationCountExpr = Except.ok r0 := h0
    have h1' : fetch invocationCount2XXExpr = Except.ok r1 := h1
    have h2' : fetch invocationCountNon2XXExpr = Except.ok r2 := h2
    simp [addMetricsHandler, hparse, he', h0', h1', h2', writeResponse,
      exprList]

/-- Witness for C1: a fetcher that fails on every expression, an OK
upstream with an empty function list; the first fetch fails, the
fallback response carries the captured body verbatim and only one
fetch was issued. -/
theorem addMetricsHandler_fallback_on_fetch_error_witness :
    addMetricsHandler (fun _ => Except.error "down") parseFloatModel
      { code := 200, body := some (UpstreamBody.functionList []) } =
      (some { status := 200, contentType := "application/json",
              body := ResponseBody.raw (UpstreamBody.functionList []) },
       exprList.take 1) :=
  addMetricsHandler_fallback_on_fetch_error (fun _ => Except.error "down")
    parseFloatModel (UpstreamBody.functionList []) [] 0 (by decide) rfl rfl
    (fun j hj => absurd hj (Nat.not_lt_zero j))

/-- C2 counterexample: the metric value parser, applied to a non-string
value, returns a nil error (the Go switch has no non-string case, so
the zero values `(0, nil)` are returned) — not an error as the claim
states. -/
theorem parseMetricValue_nonString_counterexample :
    (parseMetricValue parseFloatModel MetricValue.nonString).2 = none := rfl

/-- C2 amended: for every input value that is not a string, the metric
value parser returns value 0 with a nil error, so the caller treats the
sample as contributing zero rather than as having no value
available. -/
theorem parseMetricValue_nonString_amended (pf : String → Option ℚ) :
    parseMetricValue pf MetricValue.nonString = (0, none) := rfl

/-- C3: merge is idempotent — for every function list (also through a
nil pointer) and every fixed quadruple of query results, merging twice
equals merging once, because all four derived fields are reset to zero
before accumulation. -/
theorem mixIn_idempotent (pf : String → Option ℚ)
    (functions : Option (List FunctionRecord))
    (m1 m2 m3 m4 : VectorQueryResponse) :
    mixIn pf (mixIn pf functions m1 m2 m3 m4) m1 m2 m3 m4 =
      mixIn pf functions m1 m2 m3 m4 := by
  cases functions with
  | none => rfl
  | some fns =>
    simp [mixIn, List.map_map, Function.comp, enrichRecord_idem]

/-- C4: after the merge, each of the four fields of every record equals
the sum of the parsed values of all samples of the corresponding query
result whose function_name label exactly equals the record's name and
whose values parse with a nil error — values are added, not
overwritten. -/
theorem mixIn_sums_matching_samples (pf : String → Option ℚ)
    (fns : List FunctionRecord) (m1 m2 m3 m4 : VectorQueryResponse) :
    mixIn pf (some fns) m1 m2 m3 m4 =
      some (fns.map (fun f =>
        { f with
          invocationCount := specSumOfMatching pf f.name m1.data.result,
          invocationCount2XX := specSumOfMatching pf f.name m2.data.result,
          invocationCountNon2XX :=
            specSumOfMatching pf f.name m3.data.result,
          averageResponseTime :=
            specSumOfMatching pf f.name m4.data.result })) :=
  mixIn_eq_spec pf fns m1 m2 m3 m4

/-- C5: a sample whose value fails to parse contributes nothing to any
of the four fields — deleting it from any of the four query results, at
any position, leaves the merge result unchanged, so every other sample
is still processed — and the merge itself always produces a result
(never an error). -/
theorem mixIn_skips_unparseable_sample (pf : String → Option ℚ)
    (fns : List FunctionRecord) (s : Sample)
    (h : (parseMetricValue pf s.value.2).2 = some ())
    (pre post : List Sample) (m1 m2 m3 m4 : VectorQueryResponse) :
    (mixIn pf (some fns) ⟨⟨pre ++ s :: post⟩⟩ m2 m3 m4 =
      mixIn pf (some fns) ⟨⟨pre ++ post⟩⟩ m2 m3 m4) ∧
    (mixIn pf (some fns) m1 ⟨⟨pre ++ s :: post⟩⟩ m3 m4 =
      mixIn pf (some fns) m1 ⟨⟨pre ++ post⟩⟩ m3 m4) ∧
    (mixIn pf (some fns) m1 m2 ⟨⟨pre ++ s :: post⟩⟩ m4 =
      mixIn pf (some fns) m1 m2 ⟨⟨pre ++ post⟩⟩ m4) ∧
    (mixIn pf (some fns) m1 m2 m3 ⟨⟨pre ++ s :: post⟩⟩ =
      mixIn pf (some fns) m1 m2 m3 ⟨⟨pre ++ post⟩⟩) ∧
    (mixIn pf (some fns) m1 m2 m3 m4).isSome = true := by
  refine ⟨?_, ?_, ?_, ?_, by simp [mixIn]⟩ <;>
    simp [mixIn_eq_spec, specSumOfMatching_skip pf s h]

/-- Witness for C5: the sample value "abc" fails to parse; inserting
that sample into the first query result in front of a well-formed
sample for "fn1" leaves the merge unchanged. -/
theorem mixIn_skips_unparseable_sample_witness :
    ((parseMetricValue parseFloatModel
        (Sample.mk (Metric.mk "fn1" "200")
          (MetricValue.str "0", MetricValue.str "abc")).value.2).2 =
      some ()) ∧
    (mixIn parseFloatModel (some [FunctionRecord.mk "fn1" "meta" 5 5 5 5])
      ⟨⟨[] ++ Sample.mk (Metric.mk "fn1" "200")
            (MetricValue.str "0", MetricValue.str "abc") ::
          [Sample.mk (Metric.mk "fn1" "200")
            (MetricValue.str "0", MetricValue.str "10")]⟩⟩
      ⟨⟨[]⟩⟩ ⟨⟨[]⟩⟩ ⟨⟨[]⟩⟩ =
      mixIn parseFloatModel (some [FunctionRecord.mk "fn1" "meta" 5 5 5 5])
        ⟨⟨[] ++ [Sample.mk (Metric.mk "fn1" "200")
            (MetricValue.str "0", MetricValue.str "10")]⟩⟩
        ⟨⟨[]⟩⟩ ⟨⟨[]⟩⟩ ⟨⟨[]⟩⟩) :=
  ⟨rfl,
    (mixIn_skips_unparseable_sample parseFloatModel
      [FunctionRecord.mk "fn1" "meta" 5 5 5 5]
      (Sample.mk (Metric.mk "fn1" "200")
        (MetricValue.str "0", MetricValue.str "abc"))
      rfl []
      [Sample.mk (Metric.mk "fn1" "200")
        (MetricValue.str "0", MetricValue.str "10")]
      ⟨⟨[]⟩⟩ ⟨⟨[]⟩⟩ ⟨⟨[]⟩⟩ ⟨⟨[]⟩⟩).1⟩

/-- C6: for every request in which the wrapped handler returns a
non-OK status code, the decorator writes status 500 with Content-Type
text/plain and a diagnostic naming the captured status code (the
diagnostic contains the decimal rendering of the code), and issues no
metric queries. -/
theorem addMetricsHandler_upstream_error
    (fetch : String → Except String VectorQueryResponse)
    (pf : String → Option ℚ) (body : UpstreamBody) (c : Nat)
    (h : c ≠ 200) :
    (addMetricsHandler fetch pf { code := c, body := some body } =
      (some { status := 500, contentType := "text/plain",
              body := ResponseBody.text
                ("Error pulling metrics from provider/backend. Status code: "
                  ++ toString c) }, [])) ∧
    (∃ p q : String,
      "Error pulling metrics from provider/backend. Status code: "
          ++ toString c = p ++ toString c ++ q) := by
  refine ⟨by simp [addMetricsHandler, h], ?_⟩
  exact ⟨"Error pulling metrics from provider/backend. Status code: ", "",
    by simp⟩

/-- Witness for C6: a 503 upstream produces a 500 text/plain response
whose diagnostic contains "503", with no fetch issued. -/
theorem addMetricsHandler_upstream_error_witness :
    (addMetricsHandler (fun _ => Except.error "down") parseFloatModel
      { code := 503, body := some (UpstreamBody.functionList []) } =
      (some { status := 500, contentType := "text/plain",
              body := ResponseBody.text
                ("Error pulling metrics from provider/backend. Status code: "
                  ++ toString 503) }, [])) ∧
    (∃ p q : String,
      "Error pulling metrics from provider/backend. Status code: "
          ++ toString 503 = p ++ toString 503 ++ q) :=
  addMetricsHandler_upstream_error (fun _ => Except.error "down")
    parseFloatModel (UpstreamBody.functionList []) 503 (by decide)

/-- C7: merging a function list with four empty query results sets all
four derived fields of every record to 0, whatever their prior
values. -/
theorem mixIn_empty_results_zeroes (pf : String → Option ℚ)
    (fns : List FunctionRecord) :
    mixIn pf (some fns) ⟨⟨[]⟩⟩ ⟨⟨[]⟩⟩ ⟨⟨[]⟩⟩ ⟨⟨[]⟩⟩ =
      some (fns.map (fun f =>
        { f with invocationCount := 0, invocationCount2XX := 0,
                 invocationCountNon2XX := 0,
                 averageResponseTime := 0 })) := by
  simp [mixIn_eq_spec, specSumOfMatching]

/-- C8: merge is total and nil-safe — a nil function list is a no-op
returning nil without failing, and on any non-nil list with any query
results (samples malformed or not) it produces a result and never an
error. -/
theorem mixIn_nil_safe_total (pf : String → Option ℚ)
    (m1 m2 m3 m4 : VectorQueryResponse) (fns : List FunctionRecord) :
    mixIn pf none m1 m2 m3 m4 = none ∧
    (mixIn pf (some fns) m1 m2 m3 m4).isSome = true :=
  ⟨rfl, by simp [mixIn]⟩

/-- C9: merge modifies only the four derived fields — the result has
the same length, the same names in the same order, and the same
non-derived fields (here `metadata`) as the input; the query results
are values the merge never writes to, so they are unchanged by
construction. -/
theorem mixIn_frame (pf : String → Option ℚ) (fns : List FunctionRecord)
    (m1 m2 m3 m4 : VectorQueryResponse) :
    (mixIn pf (some fns) m1 m2 m3 m4).map List.length =
      some fns.length ∧
    (mixIn pf (some fns) m1 m2 m3 m4).map
        (List.map FunctionRecord.name) =
      some (fns.map FunctionRecord.name) ∧
    (mixIn pf (some fns) m1 m2 m3 m4).map
        (List.map FunctionRecord.metadata) =
      some (fns.map FunctionRecord.metadata) := by
  refine ⟨?_, ?_, ?_⟩ <;>
    simp [mixIn, List.map_map, Function.comp, enrichRecord, resetRecord]

/-- C10: for every input value that is not a string, the metric value
parser returns value 0 with a nil error, and in the merge a non-string
sample whose function_name matches a record adds exactly zero to the
accumulating field rather than being skipped as an error. -/
theorem parseMetricValue_nonString_contributes_zero
    (pf : String → Option ℚ) (nm code : String) (ts : MetricValue)
    (init : ℚ) :
    parseMetricValue pf MetricValue.nonString = (0, none) ∧
    accumulateField pf nm
      [Sample.mk (Metric.mk nm code) (ts, MetricValue.nonString)] init =
      init + 0 := by
  refine ⟨rfl, ?_⟩
  simp [accumulateField, parseMetricValue]

end Faas
